import Mathlib

/-!
# Shallow embedding of the email-bot core (zezere/email-bot)

This file embeds, in Lean 4, the parts of the repository that the
verification below is about:

* the timezone-aware time values the reminder policies compare
  (`datetime` objects carrying a UTC offset);
* the reminder policies of `src/scheduling.py` and the driver loop of
  `Bot.manage_reminders` (`src/bot.py`) that tries them in order;
* the conversation store `ConversationsDB` (`src/core/conversations_db.py`)
  over the tables created by `DatabaseManager`
  (`src/core/database/database_manager.py`), modelled as lists of rows;
* the deterministic front end of `LLMHandler.schedule_response`
  (`src/llm_handler.py`) and the oracle-error fallbacks of
  `Bot.analyze_conversations` / `Bot.manage_reminders` (`src/bot.py`).

Conventions:
* Python `datetime` values become the `DateTime` structure below: explicit
  calendar fields plus the UTC offset (seconds) of the timezone the value is
  aware of.  `instantOf` converts to seconds since the civil epoch
  1970-01-01, using the standard days-from-civil calendar algorithm, so that
  `datetime` subtraction and comparison are instant subtraction and
  comparison, `.date()` is the triple of calendar fields, and `.day` is the
  day-of-month field — exactly the observations the Python code makes.
* A Python function that can raise is embedded as an `Option`-valued
  function; `none` is "raises" (policy inapplicability, `IndexError`,
  `TypeError` on `None`, an SQL error, ...).
* SQLite tables become lists of records; `AUTOINCREMENT` id columns are
  omitted because no modelled operation reads them (they are only printed
  in log messages).
-/

namespace EmailBot

/-! ## Calendar arithmetic

`daysFromCivil` is the standard civil-calendar day-number algorithm
(proleptic Gregorian; day 0 = 1970-01-01).  It renders Python `datetime`
comparison and subtraction executable on explicit calendar fields. -/

/-- Day number of a civil date (proleptic Gregorian, epoch 1970-01-01). -/
def daysFromCivil (y m d : Int) : Int :=
  let y2 : Int := if m ≤ 2 then y - 1 else y
  let era : Int := y2.fdiv 400
  let yoe : Int := y2 - era * 400
  let mp : Int := (m + 9).emod 12
  let doy : Int := (153 * mp + 2).fdiv 5 + d - 1
  let doe : Int := yoe * 365 + yoe.fdiv 4 - yoe.fdiv 100 + doy
  era * 146097 + doe - 719468

/-- A timezone-aware Python `datetime`: calendar fields as the value prints
them, plus the UTC offset (in seconds) of the timezone it is aware of. -/
structure DateTime where
  year : Int
  month : Int
  day : Int
  hour : Int
  minute : Int
  second : Int
  offset : Int
deriving DecidableEq

/-- Seconds since the epoch (the instant the aware `datetime` denotes). -/
def instantOf (dt : DateTime) : Int :=
  daysFromCivil dt.year dt.month dt.day * 86400
    + dt.hour * 3600 + dt.minute * 60 + dt.second - dt.offset

/-- Python's `datetime.date()`: the calendar-date triple of the value's own
fields (no timezone conversion). -/
def dateTriple (dt : DateTime) : Int × Int × Int := (dt.year, dt.month, dt.day)

/-- Day number of the calendar date a `datetime`'s own fields show. -/
def dateNumber (dt : DateTime) : Int := daysFromCivil dt.year dt.month dt.day

/-! ## Email messages as the policies see them

The policies read `messages[-1]` / `messages[0]`, the `"From"` header
(`None` when missing) and the `"Date"` header.  The `Date` header is
modelled already parsed: `none` when the header is missing or carries no
usable timezone offset (in the source that situation raises inside
`get_current_user_time`, and makes `now - last_contact` a `TypeError` in
`WaitForSchedulePolicy`). -/

structure EmailMsg where
  fromAddr : Option String
  date : Option DateTime
deriving DecidableEq

/-- The value `utils.get_current_user_time` returns: the current instant
made aware in the user's fixed-offset timezone. -/
structure UserTime where
  utc : Int
  offset : Int
deriving DecidableEq

/-- The `.hour` field of an instant displayed at a fixed UTC offset. -/
def UserTime.hour (t : UserTime) : Int :=
  ((t.utc + t.offset).emod 86400).ediv 3600

/-- Embeds `utils.get_current_user_time` (src/utils.py:206-258): derives the
user's timezone from the offset parsed off the user message's `Date`
header and converts `now` into it.  `none` models the `ValueError` raised
when the header is missing or carries no offset. -/
def get_current_user_time (userMessage : EmailMsg) (now : DateTime) :
    Option UserTime :=
  match userMessage.date with
  | none => none
  | some d => some ⟨instantOf now, d.offset⟩

/-! ## Reminder policies (src/scheduling.py)

Each policy's `process_schedule` takes the schedule tuple
`(user, subject, due_time, reminder_sent)`, the `just_got_user_mail` flag,
the message list and `now`; it returns `True`/`False`/a string, or raises
an `AssertionError` (or other exception) when not applicable.  Here:
result `Option PolicyResult`, `none` = raises. -/

/-- The schedule tuple `(user, subject, due_time, reminder_sent)` a policy
unpacks (`database.get_all_schedules` row).  `reminderSent` is the reminder
counter; the Python value may be `bool` or `int` — `bool` is a subtype of
`int` in Python, so it is modelled as `Int` (False = 0, True = 1). -/
structure PolicySchedule where
  user : String
  subject : String
  dueTime : DateTime
  reminderSent : Int
deriving DecidableEq

/-- A policy's verdict: a boolean decision or a string that defers the
decision (`"ask agent"` / `"maybe"`). -/
inductive PolicyResult where
  | b (val : Bool)
  | s (val : String)
deriving DecidableEq

/-- The four arguments every `process_schedule` receives. -/
structure PolicyInput where
  sched : PolicySchedule
  justGotUserMail : Bool
  messages : List EmailMsg
  now : DateTime
deriving DecidableEq

/-- Embeds `DefaultPolicy.process_schedule` (src/scheduling.py:31-38): always
applicable, always `True`. -/
def defaultPolicyRun (_inp : PolicyInput) : Option PolicyResult :=
  some (.b true)

/-- Embeds `AskAgentPolicy.process_schedule` (src/scheduling.py:41-50): always
applicable, returns the string `'maybe'`. -/
def askAgentPolicyRun (_inp : PolicyInput) : Option PolicyResult :=
  some (.s "maybe")

/-- Embeds `BestPolicy.process_schedule` (src/scheduling.py:181-187): always
raises `NotImplementedError`. -/
def bestPolicyRun (_inp : PolicyInput) : Option PolicyResult :=
  none

/-- Embeds `ImmediateResponsePolicy.process_schedule` (src/scheduling.py:167-178):
asserts `just_got_user_mail`, then returns `'ask agent'`. -/
def immediateResponseRun (inp : PolicyInput) : Option PolicyResult :=
  if inp.justGotUserMail then some (.s "ask agent") else none

/-- Embeds `EarlyReminderPolicy.process_schedule` (src/scheduling.py:53-81) with
reminder hour `reminderTime` (constructor default 9).  It asserts the due
date is today and the chosen message is from the schedule's user, then
answers whether the current time in the user's timezone has reached
`reminderTime`.  The `reminder_sent` component of the schedule tuple is
unpacked but never consulted. -/
def earlyReminderRun (reminderTime : Int) (inp : PolicyInput) :
    Option PolicyResult :=
  match (if inp.justGotUserMail then inp.messages.getLast? else inp.messages.head?) with
  | none => none
  | some userMessage =>
    if dateTriple inp.sched.dueTime = dateTriple inp.now then
      if userMessage.fromAddr = some inp.sched.user then
        match get_current_user_time userMessage inp.now with
        | none => none
        | some t => some (.b (decide (reminderTime ≤ t.hour)))
      else none
    else none

/-- Embeds `LateReminderPolicy.process_schedule` (src/scheduling.py:110-132) with
waiting time in seconds (constructor default 1 hour): asserts no new user
mail, `now - due_time >= waiting_time`, and `not reminder_sent`. -/
def lateReminderRun (waitingTime : Int) (inp : PolicyInput) :
    Option PolicyResult :=
  if inp.justGotUserMail then none
  else if waitingTime ≤ instantOf inp.now - instantOf inp.sched.dueTime then
    if inp.sched.reminderSent = 0 then some (.b true) else none
  else none

/-- Embeds `SecondReminderPolicy.process_schedule` (src/scheduling.py:84-107) with
waiting time in seconds (constructor default 3 hours): asserts no new user
mail, `now - due_time >= waiting_time`, and `reminder_sent < 2` (the
`isinstance(reminder_sent, int)` guard always holds in this model). -/
def secondReminderRun (waitingTime : Int) (inp : PolicyInput) :
    Option PolicyResult :=
  if inp.justGotUserMail then none
  else if waitingTime ≤ instantOf inp.now - instantOf inp.sched.dueTime then
    if inp.sched.reminderSent < 2 then some (.b true) else none
  else none

/-- Embeds `WaitForSchedulePolicy.process_schedule` (src/scheduling.py:135-164)
with `max_delay` in seconds (constructor default 6 hours).  It reads the
last message's `Date`, computes `schedule_ahead = (due_time.day - now.day)
> 0` — a bare day-of-month comparison — asserts no new user mail and
`now - last_contact > max_delay`, then answers `False` when
`schedule_ahead` and `'ask agent'` otherwise. -/
def waitForScheduleRun (maxDelay : Int) (inp : PolicyInput) :
    Option PolicyResult :=
  match inp.messages.getLast? with
  | none => none
  | some lastMsg =>
    if inp.justGotUserMail then none
    else
      match lastMsg.date with
      | none => none
      | some lastContact =>
        if maxDelay < instantOf inp.now - instantOf lastContact then
          some (if 0 < inp.sched.dueTime.day - inp.now.day then .b false
                else .s "ask agent")
        else none

/-- A policy object as staged in `REMINDER_POLICIES`: the Python class's
`__name__` (what the class statement is called), the `process_schedule`
method with its real four parameters, and the object's `name` attribute as
the driver tries to read it — which *no* policy class in scheduling.py
defines, so every entry carries `nameAttr := none` and the lookup
`reminder_policy.name` raises `AttributeError`. -/
structure Policy where
  className : String
  run : PolicyInput → Option PolicyResult
  nameAttr : Option String

/-- Embeds `REMINDER_POLICIES` (src/scheduling.py:190-199): "The bot will try
these policies in this order." -/
def REMINDER_POLICIES : List Policy :=
  [⟨"BestPolicy", bestPolicyRun, none⟩,
   ⟨"ImmediateResponsePolicy", immediateResponseRun, none⟩,
   ⟨"WaitForSchedulePolicy", waitForScheduleRun (6 * 3600), none⟩,
   ⟨"EarlyReminderPolicy", earlyReminderRun 9, none⟩,
   ⟨"LateReminderPolicy", lateReminderRun 3600, none⟩,
   ⟨"SecondReminderPolicy", secondReminderRun (3 * 3600), none⟩,
   ⟨"AskAgentPolicy", askAgentPolicyRun, none⟩,
   ⟨"DefaultPolicy", defaultPolicyRun, none⟩]

/-- The call `processor.process_schedule(conversation_id, schedule,
messages, now, num_reminders_sent, last_policy)` issued by the policy loop
(src/bot.py:188-193).  `ScheduleProcessor.process_schedule` forwards its
arguments unchanged (src/scheduling.py:214-216), so six positional
arguments reach the selected policy's four-parameter `process_schedule`;
Python raises `TypeError` before any policy body runs — for every policy
and every argument tuple, the call never returns a value. -/
def policyCallWithSixArgs (_p : Policy) (_conversationId : Nat)
    (_schedule : DateTime) (_messages : List EmailMsg) (_now : DateTime)
    (_numRemindersSent : Option Int) (_lastPolicy : Option String) :
    Option PolicyResult :=
  none

/-- How a run of the policy loop of `Bot.manage_reminders`
(src/bot.py:183-198) can end. -/
inductive LoopOutcome where
  | decided (answer : PolicyResult) (appliedPolicy : String)
  | crashed
  | exhausted
deriving DecidableEq

/-- The policy loop of `Bot.manage_reminders` as staged
(src/bot.py:183-198): for each policy, call `process_schedule` inside
`try`; on success, format the log line and `applied_policy` from
`reminder_policy.name` and `break`; on any exception, the `except` handler
formats its own log line from `reminder_policy.name` and the loop
continues.  Because the call passes six positional arguments (see
`policyCallWithSixArgs`) it raises `TypeError` on every policy, and
because no policy object has a `name` attribute the handler's f-string
raises `AttributeError`, which nothing catches — the loop crashes on the
first policy. -/
def manageRemindersPolicyLoop : List Policy → Nat → DateTime →
    List EmailMsg → DateTime → Option Int → Option String → LoopOutcome
  | [], _, _, _, _, _, _ => .exhausted
  | p :: rest, cid, schedule, messages, now, nr, lp =>
    match policyCallWithSixArgs p cid schedule messages now nr lp with
    | some r =>
      match p.nameAttr with
      | some nm => .decided r nm
      | none => .crashed
    | none =>
      match p.nameAttr with
      | some _ => manageRemindersPolicyLoop rest cid schedule messages now nr lp
      | none => .crashed

/-! ## The conversation store (src/core/conversations_db.py)

Tables are lists of rows, following the schema `DatabaseManager`
creates (src/core/database/database_manager.py:18-86).  The store code in
`conversations_db.py` additionally reads and writes `num_reminders` and
`last_policy` columns on `schedules`; the row model follows the store code.
Timestamps written into the store (`started_at`, `completed_at`,
`timestamp`) are kept as opaque strings; the "current time"
(`datetime.now()`) each mutating call would record is passed in as the
`nowS` argument. -/

/-- A row of `conversations`. -/
structure ConvRow where
  id : Nat
  conversation_subject : String
  reply_needed : Bool
deriving DecidableEq

/-- A row of `emails` (fields the store operations touch). -/
structure EmailRow where
  id : Nat
  conversation_id : Nat
  analyzed : Bool
  processed : Bool
deriving DecidableEq

/-- A row of `ps_list` (the ProcessRecord table). -/
structure PsRecord where
  conversation_id : Nat
  status : String
  source : String
  started_at : String
  completed_at : Option String
deriving DecidableEq

/-- A row of `schedules` as `conversations_db.py` reads and writes it.
`_update_schedule` can insert rows carrying only one of the three data
columns, hence all three are nullable here. -/
structure ScheduleRow where
  conversation_id : Nat
  timestamp : Option String
  num_reminders : Option Int
  last_policy : Option String
deriving DecidableEq

/-- A row of `prepared_replies`. -/
structure PreparedReply where
  conversation_id : Nat
  reply_subject : String
  reply_message : String
  timestamp : String
  awareness_timestamp : String
deriving DecidableEq

/-- The database state. -/
structure DB where
  conversations : List ConvRow
  emails : List EmailRow
  schedules : List ScheduleRow
  ps_list : List PsRecord
  prepared_replies : List PreparedReply
deriving DecidableEq

/-- The SQL predicate `status != 'completed' OR completed_at IS NULL`
used by `_start_tracking` (src/core/conversations_db.py:559-570) and
`_update_conversation_process_status` (ibid. 613-620) to find processes
that are still open. -/
def PsRecord.isActive (r : PsRecord) : Bool :=
  decide (r.status ≠ "completed") || decide (r.completed_at = none)

/-- The row `_start_tracking` inserts for conversation `cid`
(src/core/conversations_db.py:578-585). -/
def trackRecord (source nowS : String) (cid : Nat) : PsRecord :=
  { conversation_id := cid, status := "not_started", source := source,
    started_at := nowS, completed_at := none }

/-- Embeds `ConversationsDB._start_tracking` (src/core/conversations_db.py:543-598).
Looks for open processes on any of the listed conversations; if none, one
`not_started` record per listed conversation id is inserted (in list
order) and `True` is returned; otherwise nothing is inserted and `False`
is returned.  (SQLite accepts the empty `IN ()` clause the code builds for
an empty id list: the query then returns no rows, the insert loop runs
zero times, and the call returns `True`.) -/
def startTracking (db : DB) (ids : List Nat) (source : String)
    (nowS : String) : Bool × DB :=
  let active := db.ps_list.filter
    (fun r => ids.contains r.conversation_id && r.isActive)
  if active = [] then
    (true, { db with ps_list := db.ps_list ++ ids.map (trackRecord source nowS) })
  else
    (false, db)

/-- Embeds `ConversationsDB._update_conversation_process_status`
(src/core/conversations_db.py:600-644).  When exactly one open process
exists for the conversation, `update_data` (database_manager.py:130-133)
rewrites `status` on *every* `ps_list` row whose `conversation_id`
matches, and, for `status = 'completed'`, a second `update_data` then
rewrites `completed_at` on every such row. -/
def updatePsStatus (db : DB) (cid : Nat) (status : String) (nowS : String) :
    Bool × DB :=
  let openRows := db.ps_list.filter
    (fun r => decide (r.conversation_id = cid) && r.isActive)
  if openRows.length = 1 then
    let afterStatus := db.ps_list.map
      (fun r => if r.conversation_id = cid then { r with status := status } else r)
    let afterCompleted :=
      if status = "completed" then
        afterStatus.map (fun r =>
          if r.conversation_id = cid then { r with completed_at := some nowS } else r)
      else afterStatus
    (true, { db with ps_list := afterCompleted })
  else
    (false, db)

/-- Embeds `ConversationsDB._update_schedule` (src/core/conversations_db.py:646-713).
One existing row: each provided field is rewritten in place.  No existing
row: one new row is inserted *per provided field* (three separate
`insert_data` calls).  More than one row: nothing is mutated, `False`. -/
def updateScheduleRow (db : DB) (cid : Nat) (timestamp : Option String)
    (numReminders : Option Int) (lastPolicy : Option String) : Bool × DB :=
  let rows := db.schedules.filter (fun r => decide (r.conversation_id = cid))
  if rows.length = 1 then
    let s1 := match timestamp with
      | some t => db.schedules.map (fun r =>
          if r.conversation_id = cid then { r with timestamp := some t } else r)
      | none => db.schedules
    let s2 := match numReminders with
      | some n => s1.map (fun r =>
          if r.conversation_id = cid then { r with num_reminders := some n } else r)
      | none => s1
    let s3 := match lastPolicy with
      | some p => s2.map (fun r =>
          if r.conversation_id = cid then { r with last_policy := some p } else r)
      | none => s2
    (true, { db with schedules := s3 })
  else if rows.length = 0 then
    let inserted :=
      (match timestamp with
        | some t => [{ conversation_id := cid, timestamp := some t,
                       num_reminders := none, last_policy := none : ScheduleRow }]
        | none => []) ++
      (match numReminders with
        | some n => [{ conversation_id := cid, timestamp := none,
                       num_reminders := some n, last_policy := none : ScheduleRow }]
        | none => []) ++
      (match lastPolicy with
        | some p => [{ conversation_id := cid, timestamp := none,
                       num_reminders := none, last_policy := some p : ScheduleRow }]
        | none => [])
    (true, { db with schedules := db.schedules ++ inserted })
  else
    (false, db)

/-- Embeds `ConversationsDB._update_conversation_reply_needed_flag`
(src/core/conversations_db.py:715-750). -/
def updateReplyNeeded (db : DB) (cid : Nat) (v : Bool) : Bool × DB :=
  let rows := db.conversations.filter (fun c => decide (c.id = cid))
  if rows.length = 1 then
    (true, { db with conversations := db.conversations.map (fun c =>
      if c.id = cid then { c with reply_needed := v } else c) })
  else
    (false, db)

/-- Embeds `ConversationsDB._update_emails_analyzed_flags`
(src/core/conversations_db.py:801-817): requires at least one unanalyzed
email, then sets `analyzed` on every email of the conversation. -/
def updateEmailsAnalyzed (db : DB) (cid : Nat) (v : Bool) : Bool × DB :=
  let unanalyzed := db.emails.filter
    (fun e => decide (e.conversation_id = cid) && !e.analyzed)
  if 0 < unanalyzed.length then
    (true, { db with emails := db.emails.map (fun e =>
      if e.conversation_id = cid then { e with analyzed := v } else e) })
  else
    (false, db)

/-- Embeds `ConversationsDB._update_emails_processed_flags`
(src/core/conversations_db.py:819-837). -/
def updateEmailsProcessed (db : DB) (cid : Nat) (v : Bool) : Bool × DB :=
  let unprocessed := db.emails.filter
    (fun e => decide (e.conversation_id = cid) && !e.processed)
  if 0 < unprocessed.length then
    (true, { db with emails := db.emails.map (fun e =>
      if e.conversation_id = cid then { e with processed := v } else e) })
  else
    (false, db)

/-- Embeds `ConversationsDB._save_reply` (src/core/conversations_db.py:752-799):
needs the conversation's (distinct) subject, then appends a row to
`prepared_replies`.  A missing awareness timestamp defaults to now. -/
def saveReply (db : DB) (cid : Nat) (replyMessage : String)
    (awareness : Option String) (nowS : String) : Bool × DB :=
  let aw := awareness.getD nowS
  match ((db.conversations.filter (fun c => decide (c.id = cid))).map
      (fun c => c.conversation_subject)).dedup with
  | [s] =>
    (true, { db with prepared_replies := db.prepared_replies ++
      [{ conversation_id := cid, reply_subject := s,
         reply_message := replyMessage, timestamp := nowS,
         awareness_timestamp := aw }] })
  | _ => (false, db)

/-- Embeds `ConversationsDB.update_data_after_analysis`
(src/core/conversations_db.py:365-444).  Sub-steps run unconditionally in
sequence (no rollback); the returned flag is the conjunction of the
sub-step flags. -/
def update_data_after_analysis (db : DB) (cid : Nat)
    (newSchedule : Option String) (newReplyNeeded : Bool) (nowS : String) :
    Bool × DB :=
  let r1 := if newSchedule.isSome then updateScheduleRow db cid newSchedule none none
            else (true, db)
  let r2 := updateEmailsAnalyzed r1.2 cid true
  let r3 := updateReplyNeeded r2.2 cid newReplyNeeded
  if newReplyNeeded then
    let r5 := updatePsStatus r3.2 cid "analyzed" nowS
    (r1.1 && r2.1 && r3.1 && r5.1, r5.2)
  else
    let r5 := updatePsStatus r3.2 cid "completed" nowS
    let r4 := updateEmailsProcessed r5.2 cid true
    (r1.1 && r2.1 && r3.1 && r4.1 && r5.1, r4.2)

/-- Embeds `ConversationsDB.update_data_after_step2`
(src/core/conversations_db.py:449-488). -/
def update_data_after_step2 (db : DB) (cid : Nat) (replyMessage : String)
    (awareness : Option String) (nowS : String) : Bool × DB :=
  let r1 := saveReply db cid replyMessage awareness nowS
  let r2 := updateReplyNeeded r1.2 cid false
  let r3 := updateEmailsProcessed r2.2 cid true
  let r4 := updatePsStatus r3.2 cid "completed" nowS
  (r1.1 && r2.1 && r3.1 && r4.1, r4.2)

/-- Embeds `ConversationsDB.update_schedule` (src/core/conversations_db.py:490-528):
optionally saves a reply (`if reply_message:` — `none` and the empty
string are falsy), updates the schedule row, and closes the process record
to `completed`. -/
def update_schedule (db : DB) (cid : Nat) (newSchedule : Option String)
    (replyMessage : Option String) (awareness : Option String)
    (numReminders : Option Int) (lastPolicy : Option String)
    (nowS : String) : Bool × DB :=
  let r1 := match replyMessage with
    | some m => if m = "" then (true, db) else saveReply db cid m awareness nowS
    | none => (true, db)
  let r2 := updateScheduleRow r1.2 cid newSchedule numReminders lastPolicy
  let r3 := updatePsStatus r2.2 cid "completed" nowS
  (r1.1 && r2.1 && r3.1, r3.2)

/-! ## Scheduling oracle and orchestrator decisions (src/bot.py)

`ResponseScheduler.analyze_conversation` (the oracle wrapper class is not
under src/) returns either a result dict or a dict containing an `error`
key; the orchestrator's decisions on that result are in src/ and are
embedded here.  `scheduled_for` is kept as the serialized timestamp the
store would receive. -/

/-- The scheduling oracle's outcome as the call sites in `bot.py` test it:
either a dict with an `error` key, or `response_is_due` / `scheduled_for`
/ `probability` fields. -/
inductive OracleResult where
  | error (msg : String)
  | ok (responseIsDue : Bool) (scheduledFor : Option String) (probability : Rat)
deriving DecidableEq

/-- Phase-1 decision on one oracle result (`Bot.analyze_conversations`,
src/bot.py:47-72): `(reply_needed, new_schedule)`.  On an oracle error the
code falls back to `reply_needed = True` ("respond to user"); the
`chattiness` override is dead code (`hasattr(self, 'chattiness')` is never
true) and drops out. -/
def analysisDecision (result : OracleResult) : Bool × Option String :=
  match result with
  | .error _ => (true, none)
  | .ok due sched _ => if due then (true, none) else (false, sched)

/-- Phase-3 decision on one oracle result when the policies could not
decide (`Bot.manage_reminders`, src/bot.py:205-227): on an oracle error
the code falls back to `reply_needed = False` ("don't send a reminder"). -/
def reminderOracleDecision (result : OracleResult) : Bool × Option String :=
  match result with
  | .error _ => (false, none)
  | .ok due sched _ => if due then (true, none) else (false, sched)

/-- The reminder-generation tail of a phase-3 iteration
(src/bot.py:235-254): `generate_response`'s outcome is the `genResult`
input (`none`/empty = generation failed, which skips the conversation);
on success the reply is persisted with `update_data_after_step2`. -/
def reminderGenerate (db : DB) (cid : Nat) (genResult : Option String)
    (nowS : String) : DB :=
  match genResult with
  | none => db
  | some body => if body = "" then db else (update_data_after_step2 db cid body none nowS).2

/-- Is a Python value truthy, for `if reply_message:` receiving the
`num_reminders_sent` column (`None` or an `int`)? -/
def truthyNum (v : Option Int) : Bool :=
  match v with
  | none => false
  | some n => decide (n ≠ 0)

/-- One phase-3 iteration of `Bot.manage_reminders` after the policy loop
(src/bot.py:200-254), as a transformer of the store state.
`policyOutcome` is the outcome the policy loop would hand over on
reaching src/bot.py:200 (`manageRemindersPolicyLoop` shows that, as
staged, the loop crashes before that line).

* a `False` answer hits `if reply_needed is False: continue` — the store
  is *not* touched (in particular `update_schedule` is not called);
* a `True` answer goes straight to reminder generation;
* a non-boolean answer enters the oracle block, after which
  `self.db.update_schedule(conversation_id, new_schedule,
  num_reminders_sent, applied_policy)` is called.  Those arguments land
  positionally on `update_schedule`'s `reply_message` and
  `awareness_timestamp` parameters, so `num_reminders` / `last_policy`
  arrive as `None`; when `num_reminders_sent` is truthy and the
  conversation row exists, `_save_reply` reaches
  `awareness_timestamp.isoformat()` on a string and the uncaught
  `AttributeError` aborts the pass (`none` here); when it is truthy but
  the conversation-row lookup does not find exactly one row,
  `_save_reply` merely returns `False` and the remaining sub-steps run.
  The oracle's return value of `update_schedule` is ignored by the bot.

The `policyOutcome = none` case cannot arise from `REMINDER_POLICIES`
(`AskAgentPolicy` always applies); it is routed into the oracle block,
matching `applied_policy or 'analyze'`. -/
def manageReminderOutcome (db : DB) (cid : Nat)
    (numRemindersSent : Option Int)
    (policyOutcome : Option (PolicyResult × String))
    (oracle : OracleResult) (genResult : Option String) (nowS : String) :
    Option DB :=
  match policyOutcome with
  | some (.b false, _) => some db
  | some (.b true, _) => some (reminderGenerate db cid genResult nowS)
  | _ =>
    let dec := reminderOracleDecision oracle
    if truthyNum numRemindersSent &&
        decide ((db.conversations.filter (fun c => decide (c.id = cid))).length = 1) then
      none
    else
      let afterSchedule := (updateScheduleRow db cid dec.2 none none).2
      let afterPs := (updatePsStatus afterSchedule cid "completed" nowS).2
      if dec.1 then some (reminderGenerate afterPs cid genResult nowS)
      else some afterPs

/-- One whole phase-3 iteration of `Bot.manage_reminders` for one fetched
conversation (src/bot.py:148-254): skip conversations without messages or
already running ones (no store write), run the staged policy loop, then
dispatch on its outcome via `manageReminderOutcome`.  A `.crashed` loop
outcome is the uncaught `AttributeError` escaping `manage_reminders`:
the pass aborts before any store call of this iteration (`none`). -/
def manageReminderIteration (db : DB) (cid : Nat) (schedule : DateTime)
    (messages : List EmailMsg) (now : DateTime)
    (numRemindersSent : Option Int) (lastPolicy : Option String)
    (runningConversations : List Nat) (oracle : OracleResult)
    (genResult : Option String) (nowS : String) : Option DB :=
  if messages.isEmpty then some db
  else if runningConversations.contains cid then some db
  else
    match manageRemindersPolicyLoop REMINDER_POLICIES cid schedule messages
        now numRemindersSent lastPolicy with
    | .crashed => none
    | .decided r nm =>
      manageReminderOutcome db cid numRemindersSent (some (r, nm)) oracle genResult nowS
    | .exhausted =>
      manageReminderOutcome db cid numRemindersSent none oracle genResult nowS

/-! ## Deterministic front end of the scheduling agent
(src/llm_handler.py:233-275) -/

/-- What `LLMHandler.schedule_response` does before any network call:
return `None` on an empty list, a fixed answer for a bot-authored last
message or a single user message, otherwise proceed to the LLM. -/
inductive SchedResponse where
  | noEmails
  | det (responseIsDue : Bool) (probability : Rat)
  | llmCall
deriving DecidableEq

/-- The deterministic checks of `LLMHandler.schedule_response`
(src/llm_handler.py:266-275).  A missing `From` header reads as
`"Unknown"` (`emails[-1].get("From", "Unknown")`); for a one-element list
`emails[0]` and `emails[-1]` coincide. -/
def scheduleResponseCheck (emails : List EmailMsg) (botAddress : String) :
    SchedResponse :=
  match emails.getLast? with
  | none => .noEmails
  | some lastMsg =>
    if lastMsg.fromAddr.getD "Unknown" = botAddress then
      .det false 0
    else if emails.length = 1 then
      .det true 1
    else
      .llmCall


/-! ## Helper lemmas about the store operations -/

theorem updateScheduleRow_frame (db : DB) (cid : Nat) (t : Option String)
    (n : Option Int) (p : Option String) :
    (updateScheduleRow db cid t n p).2.conversations = db.conversations ∧
    (updateScheduleRow db cid t n p).2.emails = db.emails ∧
    (updateScheduleRow db cid t n p).2.ps_list = db.ps_list ∧
    (updateScheduleRow db cid t n p).2.prepared_replies = db.prepared_replies := by
  by_cases h1 : (db.schedules.filter (fun r => decide (r.conversation_id = cid))).length = 1
  · simp [updateScheduleRow, h1]
  · by_cases h0 : (db.schedules.filter (fun r => decide (r.conversation_id = cid))).length = 0
    · simp [updateScheduleRow, h1, h0]
    · simp [updateScheduleRow, h1, h0]

theorem updateEmailsAnalyzed_frame (db : DB) (cid : Nat) (v : Bool) :
    (updateEmailsAnalyzed db cid v).2.conversations = db.conversations ∧
    (updateEmailsAnalyzed db cid v).2.schedules = db.schedules ∧
    (updateEmailsAnalyzed db cid v).2.ps_list = db.ps_list ∧
    (updateEmailsAnalyzed db cid v).2.prepared_replies = db.prepared_replies := by
  by_cases h : 0 < (db.emails.filter (fun e => decide (e.conversation_id = cid) && !e.analyzed)).length
  · simp [updateEmailsAnalyzed, h]
  · simp [updateEmailsAnalyzed, h]

/-- Setting `analyzed` flags leaves each email's `conversation_id` and
`processed` flag as they were. -/
theorem updateEmailsAnalyzed_processed (db : DB) (cid : Nat) (v : Bool) :
    (updateEmailsAnalyzed db cid v).2.emails.map (fun e => (e.conversation_id, e.processed))
      = db.emails.map (fun e => (e.conversation_id, e.processed)) := by
  by_cases h : 0 < (db.emails.filter (fun e => decide (e.conversation_id = cid) && !e.analyzed)).length
  · simp only [updateEmailsAnalyzed, h, if_true, List.map_map]
    apply List.map_congr_left
    intro e _
    by_cases h2 : e.conversation_id = cid <;> simp [h2]
  · simp [updateEmailsAnalyzed, h]

theorem updateEmailsProcessed_frame (db : DB) (cid : Nat) (v : Bool) :
    (updateEmailsProcessed db cid v).2.conversations = db.conversations ∧
    (updateEmailsProcessed db cid v).2.schedules = db.schedules ∧
    (updateEmailsProcessed db cid v).2.ps_list = db.ps_list ∧
    (updateEmailsProcessed db cid v).2.prepared_replies = db.prepared_replies := by
  by_cases h : 0 < (db.emails.filter (fun e => decide (e.conversation_id = cid) && !e.processed)).length
  · simp [updateEmailsProcessed, h]
  · simp [updateEmailsProcessed, h]

theorem updateEmailsProcessed_sets (db : DB) (cid : Nat)
    (h : (updateEmailsProcessed db cid true).1 = true) :
    ∀ e ∈ (updateEmailsProcessed db cid true).2.emails,
      e.conversation_id = cid → e.processed = true := by
  by_cases hlen : 0 < (db.emails.filter (fun e => decide (e.conversation_id = cid) && !e.processed)).length
  · simp only [updateEmailsProcessed, hlen, if_true]
    intro e he hcid
    obtain ⟨a, _, rfl⟩ := List.mem_map.mp he
    by_cases h2 : a.conversation_id = cid
    · simp [h2]
    · simp only [if_neg h2] at hcid ⊢
      exact absurd hcid h2
  · rw [updateEmailsProcessed] at h
    simp [hlen] at h

theorem updateReplyNeeded_frame (db : DB) (cid : Nat) (v : Bool) :
    (updateReplyNeeded db cid v).2.emails = db.emails ∧
    (updateReplyNeeded db cid v).2.schedules = db.schedules ∧
    (updateReplyNeeded db cid v).2.ps_list = db.ps_list ∧
    (updateReplyNeeded db cid v).2.prepared_replies = db.prepared_replies := by
  by_cases h : (db.conversations.filter (fun c => decide (c.id = cid))).length = 1
  · simp [updateReplyNeeded, h]
  · simp [updateReplyNeeded, h]

theorem updateReplyNeeded_sets (db : DB) (cid : Nat) (v : Bool)
    (h : (updateReplyNeeded db cid v).1 = true) :
    ∀ c ∈ (updateReplyNeeded db cid v).2.conversations,
      c.id = cid → c.reply_needed = v := by
  by_cases hlen : (db.conversations.filter (fun c => decide (c.id = cid))).length = 1
  · simp only [updateReplyNeeded, hlen, if_true]
    intro c hc hcid
    obtain ⟨a, _, rfl⟩ := List.mem_map.mp hc
    by_cases h2 : a.id = cid
    · simp [h2]
    · simp only [if_neg h2] at hcid ⊢
      exact absurd hcid h2
  · rw [updateReplyNeeded] at h
    simp [hlen] at h

theorem updateReplyNeeded_mem (db : DB) (cid : Nat) (v : Bool)
    (h : (updateReplyNeeded db cid v).1 = true) :
    ∃ c ∈ (updateReplyNeeded db cid v).2.conversations, c.id = cid := by
  by_cases hlen : (db.conversations.filter (fun c => decide (c.id = cid))).length = 1
  · simp only [updateReplyNeeded, hlen, if_true]
    have hne : db.conversations.filter (fun c => decide (c.id = cid)) ≠ [] := by
      intro hnil
      rw [hnil] at hlen
      simp at hlen
    obtain ⟨c, hc⟩ := List.exists_mem_of_ne_nil _ hne
    have hmf := List.mem_filter.mp hc
    have hcid : c.id = cid := by simpa using hmf.2
    exact ⟨{ c with reply_needed := v }, List.mem_map.mpr ⟨c, hmf.1, by simp [hcid]⟩, hcid⟩
  · rw [updateReplyNeeded] at h
    simp [hlen] at h

theorem updatePsStatus_frame (db : DB) (cid : Nat) (st : String) (nowS : String) :
    (updatePsStatus db cid st nowS).2.conversations = db.conversations ∧
    (updatePsStatus db cid st nowS).2.emails = db.emails ∧
    (updatePsStatus db cid st nowS).2.schedules = db.schedules ∧
    (updatePsStatus db cid st nowS).2.prepared_replies = db.prepared_replies := by
  by_cases h : (db.ps_list.filter (fun r => decide (r.conversation_id = cid) && r.isActive)).length = 1
  · by_cases hst : st = "completed" <;> simp [updatePsStatus, h, hst]
  · simp [updatePsStatus, h]

/-- The operation `_update_conversation_process_status` succeeds exactly when the
conversation has exactly one open process row. -/
theorem updatePsStatus_fst_iff (db : DB) (cid : Nat) (st : String) (nowS : String) :
    (updatePsStatus db cid st nowS).1 = true ↔
      (db.ps_list.filter (fun r => decide (r.conversation_id = cid) && r.isActive)).length = 1 := by
  by_cases h : (db.ps_list.filter (fun r => decide (r.conversation_id = cid) && r.isActive)).length = 1
  · by_cases hst : st = "completed" <;> simp [updatePsStatus, h, hst]
  · simp [updatePsStatus, h]

/-- On success, every `ps_list` row of the conversation is rewritten:
`status` on all of them, and `completed_at` on all of them when the new
status is `completed`; rows of other conversations are untouched. -/
theorem updatePsStatus_map (db : DB) (cid : Nat) (st : String) (nowS : String)
    (h : (updatePsStatus db cid st nowS).1 = true) :
    (updatePsStatus db cid st nowS).2.ps_list = db.ps_list.map (fun r =>
      if r.conversation_id = cid then
        { r with status := st,
                 completed_at := if st = "completed" then some nowS else r.completed_at }
      else r) := by
  by_cases hlen : (db.ps_list.filter (fun r => decide (r.conversation_id = cid) && r.isActive)).length = 1
  · by_cases hst : st = "completed"
    · simp only [updatePsStatus, hlen, if_true, hst, List.map_map]
      apply List.map_congr_left
      intro r _
      by_cases h2 : r.conversation_id = cid <;> simp [h2, hst]
    · simp only [updatePsStatus, hlen, if_true, hst, if_false]
  · rw [updatePsStatus] at h
    simp [hlen] at h


theorem trackRecord_filter_length (ids : List Nat) (cid : Nat) (source nowS : String) :
    ((ids.map (trackRecord source nowS)).filter (fun r =>
        decide (r.conversation_id = cid) && decide (r.status = "not_started") &&
        decide (r.source = source))).length = ids.count cid := by
  induction ids with
  | nil => simp
  | cons a rest ih =>
    by_cases h : a = cid
    · simp [trackRecord, List.filter, List.count_cons, h, ih]
    · simp [trackRecord, List.filter, List.count_cons, h, ih, Ne.symm h]


/-- On success, every `ps_list` row of the conversation carries the new
status afterwards (and the completion time when completing). -/
theorem updatePsStatus_sets (db : DB) (cid : Nat) (st : String) (nowS : String)
    (h : (updatePsStatus db cid st nowS).1 = true) :
    ∀ r ∈ (updatePsStatus db cid st nowS).2.ps_list,
      r.conversation_id = cid →
        r.status = st ∧ (st = "completed" → r.completed_at = some nowS) := by
  intro r hr hcid
  rw [updatePsStatus_map db cid st nowS h] at hr
  obtain ⟨a, _, rfl⟩ := List.mem_map.mp hr
  by_cases h2 : a.conversation_id = cid
  · by_cases hst : st = "completed" <;> simp [h2, hst]
  · simp only [if_neg h2] at hcid ⊢
    exact absurd hcid h2

/-- Frame lemma for the optional schedule sub-step of
`update_data_after_analysis`. -/
theorem scheduleStep_frame (db : DB) (cid : Nat) (ns : Option String) :
    (if ns.isSome then updateScheduleRow db cid ns none none else (true, db)).2.conversations = db.conversations ∧
    (if ns.isSome then updateScheduleRow db cid ns none none else (true, db)).2.emails = db.emails ∧
    (if ns.isSome then updateScheduleRow db cid ns none none else (true, db)).2.ps_list = db.ps_list ∧
    (if ns.isSome then updateScheduleRow db cid ns none none else (true, db)).2.prepared_replies = db.prepared_replies := by
  cases ns with
  | none => exact ⟨rfl, rfl, rfl, rfl⟩
  | some t => simpa using updateScheduleRow_frame db cid (some t) none none


/-! ## Claim theorems -/

/-- Claim C10:  For every conversation that has exactly one open
(non-completed) ProcessRecord and one or more already-completed historical
ProcessRecords, `_update_conversation_process_status` rewrites the status
column of every `ps_list` row with that conversation id — including the
historical completed records — and, when the new status is `completed`,
also overwrites `completed_at` on all of those rows with the current time;
only rows belonging to other conversations are left unchanged. -/
theorem claim_C10_status_update_rewrites_all_rows (db : DB) (cid : Nat)
    (st : String) (nowS : String)
    (hopen : (db.ps_list.filter (fun r => decide (r.conversation_id = cid) && r.isActive)).length = 1)
    (hhist : 0 < (db.ps_list.filter (fun r => decide (r.conversation_id = cid) && !r.isActive)).length) :
    (updatePsStatus db cid st nowS).1 = true ∧
    (updatePsStatus db cid st nowS).2.ps_list = db.ps_list.map (fun r =>
      if r.conversation_id = cid then
        { r with status := st,
                 completed_at := if st = "completed" then some nowS else r.completed_at }
      else r) := by
  have h1 : (updatePsStatus db cid st nowS).1 = true :=
    (updatePsStatus_fst_iff db cid st nowS).mpr hopen
  exact ⟨h1, updatePsStatus_map db cid st nowS h1⟩

/-- Store with one open phase-3 record and one completed historical record
on conversation 1, plus a completed record on conversation 2. -/
def dbW10 : DB :=
  { conversations := [{ id := 1, conversation_subject := "Cactus care", reply_needed := false }]
  , emails := []
  , schedules := []
  , ps_list :=
      [{ conversation_id := 1, status := "completed", source := "step1",
         started_at := "2025-04-01 10:00:00", completed_at := some "2025-04-01 10:05:00" },
       { conversation_id := 2, status := "completed", source := "step1",
         started_at := "2025-04-01 11:00:00", completed_at := some "2025-04-01 11:05:00" },
       { conversation_id := 1, status := "not_started", source := "step3",
         started_at := "2025-04-02 09:00:00", completed_at := none }]
  , prepared_replies := [] }

/-- Witness for C10 at a concrete store: completing conversation 1 also
rewrites its historical completed record's `status` and `completed_at`. -/
theorem claim_C10_witness :
    ((dbW10.ps_list.filter (fun r => decide (r.conversation_id = 1) && r.isActive)).length = 1 ∧
     0 < (dbW10.ps_list.filter (fun r => decide (r.conversation_id = 1) && !r.isActive)).length) ∧
    ((updatePsStatus dbW10 1 "completed" "2025-04-02 09:30:00").1 = true ∧
     (updatePsStatus dbW10 1 "completed" "2025-04-02 09:30:00").2.ps_list = dbW10.ps_list.map (fun r =>
        if r.conversation_id = 1 then
          { r with status := "completed",
                   completed_at := if "completed" = "completed" then some "2025-04-02 09:30:00" else r.completed_at }
        else r)) :=
  ⟨⟨by decide, by decide⟩,
   claim_C10_status_update_rewrites_all_rows dbW10 1 "completed" "2025-04-02 09:30:00"
     (by decide) (by decide)⟩

/-- Claim C9:  Oracle errors never abort a pass and fall back per call site:
`Bot.analyze_conversations` treats an error result as `reply_needed = True`
(fail-open), while the phase-3 oracle block of `Bot.manage_reminders`
treats it as `reply_needed = False` (fail-closed) and still proceeds to
persist the schedule/process-record update. -/
theorem claim_C9_oracle_error_fallbacks (msg : String) :
    analysisDecision (.error msg) = (true, none) ∧
    reminderOracleDecision (.error msg) = (false, none) ∧
    (∀ db : DB, ∀ cid : Nat, ∀ nm : String, ∀ gen : Option String, ∀ nowS : String,
      manageReminderOutcome db cid none (some (.s "maybe", nm)) (.error msg) gen nowS =
        some ((updatePsStatus ((updateScheduleRow db cid none none none).2) cid "completed" nowS).2)) :=
  ⟨rfl, rfl, fun _ _ _ _ _ => rfl⟩

/-- Claim C8:  The deterministic front end of `LLMHandler.schedule_response`:
a one-message history from a non-bot sender yields `response_is_due = True`
with probability 1.0 without reaching the LLM call, and any history whose
last message is from the bot's address yields `response_is_due = False`
with probability 0.0 without reaching the LLM call. -/
theorem claim_C8_schedule_response_fast_paths (emails : List EmailMsg)
    (botAddress : String) :
    (∀ e : EmailMsg, emails = [e] → e.fromAddr.getD "Unknown" ≠ botAddress →
      scheduleResponseCheck emails botAddress = .det true 1) ∧
    (∀ lastMsg : EmailMsg, emails.getLast? = some lastMsg →
      lastMsg.fromAddr.getD "Unknown" = botAddress →
      scheduleResponseCheck emails botAddress = .det false 0) := by
  constructor
  · rintro e rfl hne
    simp [scheduleResponseCheck, hne]
  · intro lastMsg hlast heq
    simp [scheduleResponseCheck, hlast, heq]

/-- Witness for C8: a fresh single user mail gets an unconditional reply;
a conversation ending with the bot's own mail gets none. -/
theorem claim_C8_witness :
    scheduleResponseCheck [{ fromAddr := some "erink@openai.com", date := none }]
        "acp@startup.com" = .det true 1 ∧
    scheduleResponseCheck
        [{ fromAddr := some "erink@openai.com", date := none },
         { fromAddr := some "acp@startup.com", date := none }]
        "acp@startup.com" = .det false 0 :=
  ⟨(claim_C8_schedule_response_fast_paths _ "acp@startup.com").1 _ rfl (by decide),
   (claim_C8_schedule_response_fast_paths _ "acp@startup.com").2 _ rfl (by decide)⟩


/-- Claim C1 (amended):  For every duplicate-free list of conversation ids
passed to `_start_tracking`: if any listed conversation has an *open*
ProcessRecord — open meaning `status != 'completed' OR completed_at IS
NULL`, which is strictly wider than "non-completed" — then the operation
inserts nothing and returns the conflict signal `False` with the store
unchanged; if none has an open record (in particular for the empty list,
whose generated `IN ()` clause SQLite accepts and which matches no rows),
it appends exactly one `not_started` record with the given source per
listed conversation and returns `True`. -/
theorem claim_C1_start_tracking_amended (db : DB) (ids : List Nat)
    (source nowS : String) (hnd : ids.Nodup) :
    ((db.ps_list.filter (fun r => ids.contains r.conversation_id && r.isActive)) ≠ [] →
      startTracking db ids source nowS = (false, db)) ∧
    ((db.ps_list.filter (fun r => ids.contains r.conversation_id && r.isActive)) = [] →
      startTracking db ids source nowS =
        (true, { db with ps_list := db.ps_list ++ ids.map (trackRecord source nowS) }) ∧
      ∀ cid ∈ ids,
        (((db.ps_list ++ ids.map (trackRecord source nowS)).filter (fun r =>
            decide (r.conversation_id = cid) && decide (r.status = "not_started") &&
            decide (r.source = source))).length
          = (db.ps_list.filter (fun r =>
            decide (r.conversation_id = cid) && decide (r.status = "not_started") &&
            decide (r.source = source))).length + 1)) := by
  constructor
  · intro hact
    simp only [startTracking]
    rw [if_neg hact]
  · intro hact
    refine ⟨by simp only [startTracking]; rw [if_pos hact], ?_⟩
    intro cid hcid
    rw [List.filter_append, List.length_append, trackRecord_filter_length,
        List.count_eq_one_of_mem hnd hcid]

/-- Store whose only ps_list row is `completed` but has no `completed_at`
(the state a crash between the two updates of
`_update_conversation_process_status` leaves behind). -/
def dbX1 : DB :=
  { conversations := [], emails := [], schedules := []
  , ps_list := [{ conversation_id := 1, status := "completed", source := "step1",
                  started_at := "2025-04-01 10:00:00", completed_at := none }]
  , prepared_replies := [] }

/-- Claim C1 counterexample:  The claim predicts that when no listed
conversation has a *non-completed* record, tracking records are inserted
and `True` is returned.  On `dbX1` every record of conversation 1 has
status `completed`, yet `_start_tracking` reports a conflict (`False`)
because its SQL also treats `completed_at IS NULL` as open. -/
theorem claim_C1_counterexample :
    ¬ (∀ db : DB, ∀ ids : List Nat, ∀ source nowS : String,
        (∀ r ∈ db.ps_list, r.conversation_id ∈ ids → r.status = "completed") →
        ∃ dbNew : DB, startTracking db ids source nowS = (true, dbNew)) := by
  intro h
  obtain ⟨dbNew, hd⟩ := h dbX1 [1] "step1" "2025-04-02 09:00:00" (by decide)
  have hv : startTracking dbX1 [1] "step1" "2025-04-02 09:00:00" = (false, dbX1) := by decide
  rw [hv] at hd
  exact Bool.noConfusion (congrArg Prod.fst hd)

/-- Witness for the amended C1: with the crash remnant completed, the
conflict disappears and exactly one fresh record appears for the listed
conversation. -/
def dbW1 : DB :=
  { conversations := [], emails := [], schedules := []
  , ps_list := [{ conversation_id := 1, status := "completed", source := "step1",
                  started_at := "2025-04-01 10:00:00", completed_at := some "2025-04-01 10:05:00" }]
  , prepared_replies := [] }

theorem claim_C1_witness :
    (([1, 2] : List Nat).Nodup ∧
      dbW1.ps_list.filter (fun r => ([1, 2] : List Nat).contains r.conversation_id && r.isActive) = []) ∧
    (startTracking dbW1 [1, 2] "step3" "2025-04-02 09:00:00" =
      (true, { dbW1 with ps_list := dbW1.ps_list ++ [1, 2].map (trackRecord "step3" "2025-04-02 09:00:00") }) ∧
     ∀ cid ∈ ([1, 2] : List Nat),
        (((dbW1.ps_list ++ [1, 2].map (trackRecord "step3" "2025-04-02 09:00:00")).filter (fun r =>
            decide (r.conversation_id = cid) && decide (r.status = "not_started") &&
            decide (r.source = "step3"))).length
          = (dbW1.ps_list.filter (fun r =>
            decide (r.conversation_id = cid) && decide (r.status = "not_started") &&
            decide (r.source = "step3"))).length + 1)) :=
  ⟨⟨by decide, by decide⟩,
   (claim_C1_start_tracking_amended dbW1 [1, 2] "step3" "2025-04-02 09:00:00"
      (by decide)).2 (by decide)⟩

/-- Claim C7 (code bug):  `_update_schedule` on a conversation with *no* schedule row
and more than one provided field inserts one partial row per field: from
zero rows it reports success and leaves the conversation with two schedule
rows, violating the at-most-one-row invariant the claim states.  (The
`>1 rows → mutate nothing, return False` half of the claim does hold; the
preservation half is the bug — the function's own docstring says
"insert a new one", and the function itself treats more than one row as an
error state.) -/
def dbX7 : DB :=
  { conversations := [{ id := 1, conversation_subject := "Cactus care", reply_needed := false }]
  , emails := [], schedules := [], ps_list := [], prepared_replies := [] }

theorem claim_C7_code_bug :
    (dbX7.schedules.filter (fun r => decide (r.conversation_id = 1))).length = 0 ∧
    (updateScheduleRow dbX7 1 (some "2025-04-20 09:00:00") (some 1) none).1 = true ∧
    ((updateScheduleRow dbX7 1 (some "2025-04-20 09:00:00") (some 1) none).2.schedules.filter
        (fun r => decide (r.conversation_id = 1))).length = 2 := by
  refine ⟨by decide, by decide, by decide⟩


/-- Due time of the overdue schedule of the C4 conversation. -/
def dtDueX4 : DateTime :=
  { year := 2025, month := 4, day := 26, hour := 9,
    minute := 0, second := 0, offset := 0 }

/-- Current time of the C4 phase-3 iteration. -/
def dtNowX4 : DateTime :=
  { year := 2025, month := 5, day := 25, hour := 20,
    minute := 0, second := 0, offset := 0 }

/-- Last (and only) message of the C4 conversation. -/
def mX4 : EmailMsg :=
  { fromAddr := some "rainer.grebin@cloud-g.com"
  , date := some { year := 2025, month := 5, day := 25, hour := 10,
                   minute := 0, second := 0, offset := 0 } }

/-- The store for the C4 conversation: one open phase-3 tracking record
created by `get_scheduled_conversations(track=True)`. -/
def dbX4 : DB :=
  { conversations := [{ id := 1, conversation_subject := "Cactus care", reply_needed := false }]
  , emails := [{ id := 1, conversation_id := 1, analyzed := true, processed := true }]
  , schedules := [{ conversation_id := 1, timestamp := some "2025-04-26 09:00:00",
                    num_reminders := some 0, last_policy := none }]
  , ps_list := [{ conversation_id := 1, status := "not_started", source := "step3",
                  started_at := "2025-05-25 20:00:01", completed_at := none }]
  , prepared_replies := [] }

/-- Claim C4 (code bug):  The claim (and the spec, and `update_schedule`'s own
docstring: "Even if all parameters are None, still needs to be called,
because it updates the conversation process status to completed") says the
phase-3 tracking record is closed regardless of the policy outcome.  As
staged, no iteration ever closes it: the policy loop crashes on the first
policy (`TypeError` from the six-argument call, then `AttributeError` in
the `except` handler reading the undefined `reminder_policy.name`), so
`update_schedule` is never reached and the tracking record opened for the
conversation stays `not_started` while `manage_reminders` aborts.  And
even under the loop's intended try-next dispatch, a `False` policy answer
hits `if reply_needed is False: continue` (src/bot.py:200-202) before any
store call — the final conjunct shows that path also skips
`update_schedule`, leaving the store untouched. -/
theorem claim_C4_code_bug :
    manageRemindersPolicyLoop REMINDER_POLICIES 1 dtDueX4 [mX4] dtNowX4
      (some 0) none = .crashed ∧
    manageReminderIteration dbX4 1 dtDueX4 [mX4] dtNowX4 (some 0) none []
      (.ok false none 0) none "2025-05-25 20:00:02" = none ∧
    (∀ r ∈ dbX4.ps_list, r.status = "not_started" ∧ r.completed_at = none) ∧
    (∀ (db : DB) (cid : Nat) (nr : Option Int) (nm : String)
       (oracle : OracleResult) (gen : Option String) (nowS : String),
       manageReminderOutcome db cid nr (some (.b false, nm)) oracle gen nowS = some db) := by
  refine ⟨by decide, by decide, by decide, fun _ _ _ _ _ _ _ => rfl⟩


/-- Abbreviation for the sub-states `update_data_after_analysis` walks
through (used only to keep the proofs below readable): state after the
optional schedule update. -/
def anaSchedStep (db : DB) (cid : Nat) (ns : Option String) : Bool × DB :=
  if ns.isSome then updateScheduleRow db cid ns none none else (true, db)

/-- State after marking the conversation's emails analyzed. -/
def anaMailStep (db : DB) (cid : Nat) (ns : Option String) : Bool × DB :=
  updateEmailsAnalyzed (anaSchedStep db cid ns).2 cid true

/-- State after writing the `reply_needed` flag. -/
def anaReplyStep (db : DB) (cid : Nat) (ns : Option String) (rn : Bool) :
    Bool × DB :=
  updateReplyNeeded (anaMailStep db cid ns).2 cid rn

/-- State after the process-status update of either branch of step 4. -/
def anaPsStep (db : DB) (cid : Nat) (ns : Option String) (rn : Bool)
    (st : String) (nowS : String) : Bool × DB :=
  updatePsStatus (anaReplyStep db cid ns rn).2 cid st nowS

/-- State after marking emails processed (reply-not-needed branch only). -/
def anaProcStep (db : DB) (cid : Nat) (ns : Option String) (nowS : String) :
    Bool × DB :=
  updateEmailsProcessed (anaPsStep db cid ns false "completed" nowS).2 cid true

theorem udaa_true_eq (db : DB) (cid : Nat) (ns : Option String) (nowS : String) :
    update_data_after_analysis db cid ns true nowS =
      ((anaSchedStep db cid ns).1 && (anaMailStep db cid ns).1 &&
         (anaReplyStep db cid ns true).1 && (anaPsStep db cid ns true "analyzed" nowS).1,
       (anaPsStep db cid ns true "analyzed" nowS).2) := rfl

theorem udaa_false_eq (db : DB) (cid : Nat) (ns : Option String) (nowS : String) :
    update_data_after_analysis db cid ns false nowS =
      ((anaSchedStep db cid ns).1 && (anaMailStep db cid ns).1 &&
         (anaReplyStep db cid ns false).1 && (anaProcStep db cid ns nowS).1 &&
         (anaPsStep db cid ns false "completed" nowS).1,
       (anaProcStep db cid ns nowS).2) := rfl

theorem anaMailStep_eq (db : DB) (cid : Nat) (ns : Option String) :
    anaMailStep db cid ns = updateEmailsAnalyzed (anaSchedStep db cid ns).2 cid true := rfl

theorem anaReplyStep_eq (db : DB) (cid : Nat) (ns : Option String) (rn : Bool) :
    anaReplyStep db cid ns rn = updateReplyNeeded (anaMailStep db cid ns).2 cid rn := rfl

theorem anaPsStep_eq (db : DB) (cid : Nat) (ns : Option String) (rn : Bool)
    (st : String) (nowS : String) :
    anaPsStep db cid ns rn st nowS = updatePsStatus (anaReplyStep db cid ns rn).2 cid st nowS := rfl

theorem anaProcStep_eq (db : DB) (cid : Nat) (ns : Option String) (nowS : String) :
    anaProcStep db cid ns nowS =
      updateEmailsProcessed (anaPsStep db cid ns false "completed" nowS).2 cid true := rfl

/-- Claim C2:  `update_data_after_analysis` on a conversation with at least
one unanalyzed email, exactly one conversation row, exactly one open
ProcessRecord and at most one schedule row: whenever it returns `True`,
the conversation's `reply_needed` equals the requested flag; with
`reply_needed = True` the process rows of the conversation carry status
`analyzed` and no email's `processed` flag moved; with
`reply_needed = False` every email of the conversation is `processed` and
the process rows carry status `completed` with `completed_at` set. -/
theorem claim_C2_record_analysis_outcome (db : DB) (cid : Nat)
    (newSchedule : Option String) (rn : Bool) (nowS : String)
    (hmail : 0 < (db.emails.filter (fun e => decide (e.conversation_id = cid) && !e.analyzed)).length)
    (hconv : (db.conversations.filter (fun c => decide (c.id = cid))).length = 1)
    (hopen : (db.ps_list.filter (fun r => decide (r.conversation_id = cid) && r.isActive)).length = 1)
    (hsched : (db.schedules.filter (fun r => decide (r.conversation_id = cid))).length ≤ 1)
    (hres : (update_data_after_analysis db cid newSchedule rn nowS).1 = true) :
    (∀ c ∈ (update_data_after_analysis db cid newSchedule rn nowS).2.conversations,
        c.id = cid → c.reply_needed = rn) ∧
    (∃ c ∈ (update_data_after_analysis db cid newSchedule rn nowS).2.conversations, c.id = cid) ∧
    (rn = true →
      (∀ r ∈ (update_data_after_analysis db cid newSchedule rn nowS).2.ps_list,
          r.conversation_id = cid → r.status = "analyzed") ∧
      (update_data_after_analysis db cid newSchedule rn nowS).2.emails.map
          (fun e => (e.conversation_id, e.processed))
        = db.emails.map (fun e => (e.conversation_id, e.processed))) ∧
    (rn = false →
      (∀ e ∈ (update_data_after_analysis db cid newSchedule rn nowS).2.emails,
          e.conversation_id = cid → e.processed = true) ∧
      (∀ r ∈ (update_data_after_analysis db cid newSchedule rn nowS).2.ps_list,
          r.conversation_id = cid →
            r.status = "completed" ∧ r.completed_at = some nowS)) := by
  cases rn with
  | true =>
    obtain ⟨b1, db1, hA⟩ : ∃ b d, anaSchedStep db cid newSchedule = (b, d) := ⟨_, _, rfl⟩
    obtain ⟨b2, db2, hB⟩ : ∃ b d, updateEmailsAnalyzed db1 cid true = (b, d) := ⟨_, _, rfl⟩
    obtain ⟨b3, db3, hC⟩ : ∃ b d, updateReplyNeeded db2 cid true = (b, d) := ⟨_, _, rfl⟩
    obtain ⟨b5, db5, hD⟩ : ∃ b d, updatePsStatus db3 cid "analyzed" nowS = (b, d) := ⟨_, _, rfl⟩
    have hM : anaMailStep db cid newSchedule = (b2, db2) := by
      rw [anaMailStep_eq, hA]; exact hB
    have hR : anaReplyStep db cid newSchedule true = (b3, db3) := by
      rw [anaReplyStep_eq, hM]; exact hC
    have hP : anaPsStep db cid newSchedule true "analyzed" nowS = (b5, db5) := by
      rw [anaPsStep_eq, hR]; exact hD
    rw [udaa_true_eq, hA, hM, hR, hP] at hres
    simp only [Bool.and_eq_true] at hres
    obtain ⟨⟨⟨hb1, hb2⟩, hb3⟩, hb5⟩ := hres
    rw [udaa_true_eq, hP]
    have h3t : (updateReplyNeeded db2 cid true).1 = true := by rw [hC]; exact hb3
    have h5t : (updatePsStatus db3 cid "analyzed" nowS).1 = true := by rw [hD]; exact hb5
    have e3 : (updateReplyNeeded db2 cid true).2 = db3 := by rw [hC]
    have e5 : (updatePsStatus db3 cid "analyzed" nowS).2 = db5 := by rw [hD]
    have hDconv : db5.conversations = db3.conversations := by
      rw [← e5]; exact (updatePsStatus_frame db3 cid "analyzed" nowS).1
    have hDmail : db5.emails = db3.emails := by
      rw [← e5]; exact (updatePsStatus_frame db3 cid "analyzed" nowS).2.1
    have hCmail : db3.emails = db2.emails := by
      rw [← e3]; exact (updateReplyNeeded_frame db2 cid true).1
    have e2 : (updateEmailsAnalyzed db1 cid true).2 = db2 := by rw [hB]
    have e1 : (anaSchedStep db cid newSchedule).2 = db1 := by rw [hA]
    have hAmail : db1.emails = db.emails := by
      rw [← e1]; exact (scheduleStep_frame db cid newSchedule).2.1
    have hsets := updateReplyNeeded_sets db2 cid true h3t
    rw [e3] at hsets
    have hmem := updateReplyNeeded_mem db2 cid true h3t
    rw [e3] at hmem
    have hps := updatePsStatus_sets db3 cid "analyzed" nowS h5t
    rw [e5] at hps
    have hBmail : db2.emails.map (fun e => (e.conversation_id, e.processed))
        = db1.emails.map (fun e => (e.conversation_id, e.processed)) := by
      rw [← e2]; exact updateEmailsAnalyzed_processed db1 cid true
    refine ⟨?_, ?_, ?_, ?_⟩
    · intro c hc hcid
      rw [hDconv] at hc
      exact hsets c hc hcid
    · obtain ⟨c, hc, hcid⟩ := hmem
      exact ⟨c, hDconv ▸ hc, hcid⟩
    · intro _
      refine ⟨fun r hr hcid => (hps r hr hcid).1, ?_⟩
      rw [hDmail, hCmail, hBmail, hAmail]
    · intro hf
      exact absurd hf (by simp)
  | false =>
    obtain ⟨b1, db1, hA⟩ : ∃ b d, anaSchedStep db cid newSchedule = (b, d) := ⟨_, _, rfl⟩
    obtain ⟨b2, db2, hB⟩ : ∃ b d, updateEmailsAnalyzed db1 cid true = (b, d) := ⟨_, _, rfl⟩
    obtain ⟨b3, db3, hC⟩ : ∃ b d, updateReplyNeeded db2 cid false = (b, d) := ⟨_, _, rfl⟩
    obtain ⟨b5, db5, hD⟩ : ∃ b d, updatePsStatus db3 cid "completed" nowS = (b, d) := ⟨_, _, rfl⟩
    obtain ⟨b4, db4, hE⟩ : ∃ b d, updateEmailsProcessed db5 cid true = (b, d) := ⟨_, _, rfl⟩
    have hM : anaMailStep db cid newSchedule = (b2, db2) := by
      rw [anaMailStep_eq, hA]; exact hB
    have hR : anaReplyStep db cid newSchedule false = (b3, db3) := by
      rw [anaReplyStep_eq, hM]; exact hC
    have hP : anaPsStep db cid newSchedule false "completed" nowS = (b5, db5) := by
      rw [anaPsStep_eq, hR]; exact hD
    have hQ : anaProcStep db cid newSchedule nowS = (b4, db4) := by
      rw [anaProcStep_eq, hP]; exact hE
    rw [udaa_false_eq, hA, hM, hR, hQ, hP] at hres
    simp only [Bool.and_eq_true] at hres
    obtain ⟨⟨⟨⟨hb1, hb2⟩, hb3⟩, hb4⟩, hb5⟩ := hres
    rw [udaa_false_eq, hQ]
    have h3t : (updateReplyNeeded db2 cid false).1 = true := by rw [hC]; exact hb3
    have h4t : (updateEmailsProcessed db5 cid true).1 = true := by rw [hE]; exact hb4
    have h5t : (updatePsStatus db3 cid "completed" nowS).1 = true := by rw [hD]; exact hb5
    have e3 : (updateReplyNeeded db2 cid false).2 = db3 := by rw [hC]
    have e4 : (updateEmailsProcessed db5 cid true).2 = db4 := by rw [hE]
    have e5 : (updatePsStatus db3 cid "completed" nowS).2 = db5 := by rw [hD]
    have hEconv : db4.conversations = db5.conversations := by
      rw [← e4]; exact (updateEmailsProcessed_frame db5 cid true).1
    have hDconv : db5.conversations = db3.conversations := by
      rw [← e5]; exact (updatePsStatus_frame db3 cid "completed" nowS).1
    have hEps : db4.ps_list = db5.ps_list := by
      rw [← e4]; exact (updateEmailsProcessed_frame db5 cid true).2.2.1
    have hsets := updateReplyNeeded_sets db2 cid false h3t
    rw [e3] at hsets
    have hmem := updateReplyNeeded_mem db2 cid false h3t
    rw [e3] at hmem
    have hproc := updateEmailsProcessed_sets db5 cid h4t
    rw [e4] at hproc
    have hps := updatePsStatus_sets db3 cid "completed" nowS h5t
    rw [e5] at hps
    refine ⟨?_, ?_, ?_, ?_⟩
    · intro c hc hcid
      rw [hEconv, hDconv] at hc
      exact hsets c hc hcid
    · obtain ⟨c, hc, hcid⟩ := hmem
      exact ⟨c, hEconv ▸ hDconv ▸ hc, hcid⟩
    · intro ht
      exact absurd ht (by simp)
    · intro _
      refine ⟨hproc, ?_⟩
      intro r hr hcid
      rw [hEps] at hr
      have hset := hps r hr hcid
      exact ⟨hset.1, hset.2 rfl⟩


/-- A store with one conversation, one unanalyzed+unprocessed email and
one open phase-1 tracking record. -/
def dbW2 : DB :=
  { conversations := [{ id := 1, conversation_subject := "Cactus care", reply_needed := true }]
  , emails := [{ id := 1, conversation_id := 1, analyzed := false, processed := false }]
  , schedules := []
  , ps_list := [{ conversation_id := 1, status := "not_started", source := "step1",
                  started_at := "2025-04-02 09:00:00", completed_at := none }]
  , prepared_replies := [] }

/-- Witness for C2 (`reply_needed = false` branch) at a concrete store. -/
theorem claim_C2_witness :
    (0 < (dbW2.emails.filter (fun e => decide (e.conversation_id = 1) && !e.analyzed)).length ∧
     (dbW2.conversations.filter (fun c => decide (c.id = 1))).length = 1 ∧
     (dbW2.ps_list.filter (fun r => decide (r.conversation_id = 1) && r.isActive)).length = 1 ∧
     (dbW2.schedules.filter (fun r => decide (r.conversation_id = 1))).length ≤ 1 ∧
     (update_data_after_analysis dbW2 1 none false "2025-04-02 09:05:00").1 = true) ∧
    ((∀ c ∈ (update_data_after_analysis dbW2 1 none false "2025-04-02 09:05:00").2.conversations,
        c.id = 1 → c.reply_needed = false) ∧
     (∃ c ∈ (update_data_after_analysis dbW2 1 none false "2025-04-02 09:05:00").2.conversations, c.id = 1) ∧
     (false = true →
       (∀ r ∈ (update_data_after_analysis dbW2 1 none false "2025-04-02 09:05:00").2.ps_list,
           r.conversation_id = 1 → r.status = "analyzed") ∧
       (update_data_after_analysis dbW2 1 none false "2025-04-02 09:05:00").2.emails.map
           (fun e => (e.conversation_id, e.processed))
         = dbW2.emails.map (fun e => (e.conversation_id, e.processed))) ∧
     (false = false →
       (∀ e ∈ (update_data_after_analysis dbW2 1 none false "2025-04-02 09:05:00").2.emails,
           e.conversation_id = 1 → e.processed = true) ∧
       (∀ r ∈ (update_data_after_analysis dbW2 1 none false "2025-04-02 09:05:00").2.ps_list,
           r.conversation_id = 1 →
             r.status = "completed" ∧ r.completed_at = some "2025-04-02 09:05:00"))) :=
  ⟨⟨by decide, by decide, by decide, by decide, by decide⟩,
   claim_C2_record_analysis_outcome dbW2 1 none false "2025-04-02 09:05:00"
     (by decide) (by decide) (by decide) (by decide) (by decide)⟩


/-- An arbitrary due time for the C3 counterexample iteration. -/
def dtX3 : DateTime :=
  { year := 2025, month := 4, day := 10, hour := 9,
    minute := 0, second := 0, offset := 0 }

/-- Current time of the C3 counterexample iteration. -/
def dtX3b : DateTime :=
  { year := 2025, month := 4, day := 11, hour := 12,
    minute := 0, second := 0, offset := 0 }

/-- Last message of the C3 counterexample conversation. -/
def mX3 : EmailMsg :=
  { fromAddr := some "lee@example.com"
  , date := some { year := 2025, month := 4, day := 11, hour := 8,
                   minute := 0, second := 0, offset := 0 } }

/-- Claim C3 counterexample:  The claim says the first applicable policy's
answer is the decision used and its name recorded.  As staged the driver
never reaches any decision: every `process_schedule` call raises
`TypeError` (src/bot.py:188-193 passes six positional arguments to the
four-parameter method) and the `except` handler's f-string raises
`AttributeError` on the undefined `reminder_policy.name`
(src/bot.py:198), so the loop crashes on the very first policy — shown
here at a concrete phase-3 iteration.  (The claimed order is also wrong
about the list itself: `REMINDER_POLICIES` has eight policies, with
`ImmediateResponsePolicy` second, which the claim omits.) -/
theorem claim_C3_counterexample :
    ¬ (∀ (cid : Nat) (schedule : DateTime) (messages : List EmailMsg)
         (now : DateTime) (nr : Option Int) (lp : Option String),
        ∃ (r : PolicyResult) (nm : String),
          manageRemindersPolicyLoop REMINDER_POLICIES cid schedule messages
            now nr lp = .decided r nm) := by
  intro h
  obtain ⟨r, nm, hd⟩ := h 1 dtX3 [mX3] dtX3b (some 0) none
  rw [show manageRemindersPolicyLoop REMINDER_POLICIES 1 dtX3 [mX3] dtX3b
        (some 0) none = .crashed from rfl] at hd
  exact LoopOutcome.noConfusion hd

/-- Claim C3 (amended):  The staged policy loop walks `REMINDER_POLICIES`
in the fixed priority order BestPolicy, **ImmediateResponsePolicy**,
WaitForSchedulePolicy, EarlyReminderPolicy, LateReminderPolicy,
SecondReminderPolicy, AskAgentPolicy, DefaultPolicy, but it crashes on
the first policy for every input: the call passes six positional
arguments to the four-parameter `process_schedule` (`TypeError`), and the
`except` handler reads `reminder_policy.name`, an attribute no policy
class defines (`AttributeError`, uncaught) — no policy's answer is ever
used and no name is ever recorded as `lastPolicyApplied`. -/
theorem claim_C3_policy_loop_amended :
    REMINDER_POLICIES.map (fun p => p.className) =
      ["BestPolicy", "ImmediateResponsePolicy", "WaitForSchedulePolicy",
       "EarlyReminderPolicy", "LateReminderPolicy", "SecondReminderPolicy",
       "AskAgentPolicy", "DefaultPolicy"] ∧
    (∀ p ∈ REMINDER_POLICIES, p.nameAttr = none) ∧
    (∀ (cid : Nat) (schedule : DateTime) (messages : List EmailMsg)
       (now : DateTime) (nr : Option Int) (lp : Option String),
       manageRemindersPolicyLoop REMINDER_POLICIES cid schedule messages
         now nr lp = .crashed) :=
  ⟨rfl, by decide, fun _ _ _ _ _ _ => rfl⟩

/-- Witness for the amended C3: a concrete phase-3 iteration ends in the
crash the characterization predicts. -/
theorem claim_C3_witness :
    manageRemindersPolicyLoop REMINDER_POLICIES 2 dtX3 [] dtX3b none
      (some "LateReminderPolicy") = .crashed :=
  claim_C3_policy_loop_amended.2.2 2 dtX3 [] dtX3b none (some "LateReminderPolicy")


/-- Schedule due today with one reminder already sent; the message is from
the schedule's user and carries a +02:00 offset. -/
def inpX5 : PolicyInput :=
  { sched := { user := "mia@example.com", subject := "Marathon",
               dueTime := { year := 2025, month := 4, day := 11, hour := 18,
                            minute := 0, second := 0, offset := 0 },
               reminderSent := 1 }
  , justGotUserMail := false
  , messages := [{ fromAddr := some "mia@example.com",
                   date := some { year := 2025, month := 4, day := 10, hour := 21,
                                  minute := 0, second := 0, offset := 7200 } }]
  , now := { year := 2025, month := 4, day := 11, hour := 10,
             minute := 0, second := 0, offset := 0 } }

/-- Schedule due today with no reminder sent, but the consulted (first)
message is not from the schedule's user. -/
def inpX5b : PolicyInput :=
  { sched := { user := "mia@example.com", subject := "Marathon",
               dueTime := { year := 2025, month := 4, day := 11, hour := 18,
                            minute := 0, second := 0, offset := 0 },
               reminderSent := 0 }
  , justGotUserMail := false
  , messages := [{ fromAddr := some "acp@acp.com",
                   date := some { year := 2025, month := 4, day := 10, hour := 21,
                                  minute := 0, second := 0, offset := 7200 } }]
  , now := { year := 2025, month := 4, day := 11, hour := 10,
             minute := 0, second := 0, offset := 0 } }

/-- Claim C5 counterexample:  Both directions of the claim's applicability
condition fail on the source policy: `EarlyReminderPolicy` never looks at
the reminder counter (on `inpX5` a reminder was already sent, the claim
demands inapplicability, yet the policy answers `True`), and it adds a
sender check the claim does not mention (on `inpX5b` the schedule is due
today with no reminder sent, the claim demands applicability, yet the
policy raises because the consulted message is not from the user). -/
theorem claim_C5_counterexample :
    (¬ ∀ inp : PolicyInput, inp.sched.reminderSent ≠ 0 →
        earlyReminderRun 9 inp = none) ∧
    (¬ ∀ inp : PolicyInput,
        dateTriple inp.sched.dueTime = dateTriple inp.now →
        inp.sched.reminderSent = 0 → (earlyReminderRun 9 inp).isSome) := by
  constructor
  · intro h
    exact absurd (h inpX5 (by decide)) (by decide)
  · intro h
    exact absurd (h inpX5b (by decide) (by decide)) (by decide)

/-- Claim C5 (amended):  `EarlyReminderPolicy.process_schedule` with reminder
hour `reminderTime` is applicable iff the schedule's due date equals
`now`'s date *and* the consulted message (the last message when
`just_got_user_mail`, the first otherwise) is from the schedule's user and
carries a `Date` with a usable timezone offset; the number of reminders
already sent is not consulted.  When applicable it answers `True` iff
`now`, converted into the user's timezone (the offset of that message's
`Date` header), has hour at or past `reminderTime`. -/
theorem claim_C5_early_reminder_amended (reminderTime : Int)
    (inp : PolicyInput) (um : EmailMsg)
    (hum : (if inp.justGotUserMail then inp.messages.getLast? else inp.messages.head?) = some um) :
    ((earlyReminderRun reminderTime inp).isSome ↔
      (dateTriple inp.sched.dueTime = dateTriple inp.now ∧
       um.fromAddr = some inp.sched.user ∧ um.date.isSome)) ∧
    (∀ d : DateTime, um.date = some d →
      earlyReminderRun reminderTime inp =
        (if dateTriple inp.sched.dueTime = dateTriple inp.now ∧
            um.fromAddr = some inp.sched.user
         then some (.b (decide (reminderTime ≤ UserTime.hour ⟨instantOf inp.now, d.offset⟩)))
         else none)) := by
  by_cases h1 : dateTriple inp.sched.dueTime = dateTriple inp.now
  · by_cases h2 : um.fromAddr = some inp.sched.user
    · cases hd : um.date with
      | none =>
        constructor
        · simp [earlyReminderRun, hum, get_current_user_time, hd, h1, h2]
        · intro d hdd
          exact absurd hdd (by simp)
      | some d0 =>
        constructor
        · simp [earlyReminderRun, hum, get_current_user_time, hd, h1, h2]
        · intro d hdd
          rw [Option.some_inj] at hdd
          subst hdd
          simp [earlyReminderRun, hum, get_current_user_time, hd, h1, h2]
    · constructor
      · simp [earlyReminderRun, hum, h1, h2]
      · intro d hdd
        simp [earlyReminderRun, hum, h1, h2]
  · constructor
    · simp [earlyReminderRun, hum, h1]
    · intro d hdd
      simp [earlyReminderRun, hum, h1]

/-- The consulted user message for the C5 witness (+02:00 offset). -/
def mW5 : EmailMsg :=
  { fromAddr := some "mia@example.com"
  , date := some { year := 2025, month := 4, day := 10, hour := 21,
                   minute := 0, second := 0, offset := 7200 } }

/-- Morning input for the C5 witness: due today, consulted message from the
user with offset +02:00, local user time 12:00. -/
def inpW5 : PolicyInput :=
  { sched := { user := "mia@example.com", subject := "Marathon",
               dueTime := { year := 2025, month := 4, day := 11, hour := 18,
                            minute := 0, second := 0, offset := 0 },
               reminderSent := 0 }
  , justGotUserMail := false
  , messages := [mW5]
  , now := { year := 2025, month := 4, day := 11, hour := 10,
             minute := 0, second := 0, offset := 0 } }

/-- Witness for the amended C5 at `inpW5`. -/
theorem claim_C5_witness :
    ((if inpW5.justGotUserMail then inpW5.messages.getLast? else inpW5.messages.head?) = some mW5) ∧
    (((earlyReminderRun 9 inpW5).isSome ↔
        (dateTriple inpW5.sched.dueTime = dateTriple inpW5.now ∧
         mW5.fromAddr = some inpW5.sched.user ∧ mW5.date.isSome)) ∧
     (∀ d : DateTime, mW5.date = some d →
        earlyReminderRun 9 inpW5 =
          (if dateTriple inpW5.sched.dueTime = dateTriple inpW5.now ∧
              mW5.fromAddr = some inpW5.sched.user
           then some (.b (decide ((9 : Int) ≤ UserTime.hour ⟨instantOf inpW5.now, d.offset⟩)))
           else none))) :=
  ⟨by decide, claim_C5_early_reminder_amended 9 inpW5 mW5 (by decide)⟩


/-- Last message of the month-boundary C6 input. -/
def mX6 : EmailMsg :=
  { fromAddr := some "joe@example.com"
  , date := some { year := 2025, month := 4, day := 30, hour := 10,
                   minute := 0, second := 0, offset := 0 } }

/-- Month-boundary input: the next checkpoint is tomorrow (May 1), `now`
is April 30, and more than 6 hours have passed since the last message. -/
def inpX6 : PolicyInput :=
  { sched := { user := "joe@example.com", subject := "Financial Discipline",
               dueTime := { year := 2025, month := 5, day := 1, hour := 9,
                            minute := 0, second := 0, offset := 0 },
               reminderSent := 0 }
  , justGotUserMail := false
  , messages := [mX6]
  , now := { year := 2025, month := 4, day := 30, hour := 20,
             minute := 0, second := 0, offset := 0 } }

/-- Claim C6 counterexample:  The claim says an applicable
`WaitForSchedulePolicy` answers `False` exactly when the next checkpoint
falls on a later *calendar day* than the current time.  The source
computes `schedule_ahead = (due_time.day - now.day) > 0` on bare
day-of-month numbers (src/scheduling.py:156), so on `inpX6` — due May 1,
now April 30, a later calendar day — it answers `'ask agent'` instead of
`False` (1 - 30 < 0). -/
theorem claim_C6_counterexample :
    ¬ (∀ (inp : PolicyInput) (lastMsg : EmailMsg) (lc : DateTime),
        inp.messages.getLast? = some lastMsg → lastMsg.date = some lc →
        (((waitForScheduleRun (6 * 3600) inp).isSome ↔
            6 * 3600 < instantOf inp.now - instantOf lc) ∧
         (waitForScheduleRun (6 * 3600) inp = some (.b false) ↔
            ((waitForScheduleRun (6 * 3600) inp).isSome ∧
             dateNumber inp.now < dateNumber inp.sched.dueTime)))) := by
  intro h
  obtain ⟨h1, h2⟩ := h inpX6 mX6
    { year := 2025, month := 4, day := 30, hour := 10,
      minute := 0, second := 0, offset := 0 } (by decide) (by decide)
  exact absurd (h2.mpr (by decide)) (by decide)

/-- Claim C6 (amended):  `WaitForSchedulePolicy.process_schedule` with
`max_delay` is applicable iff there was no fresh user mail and strictly
more than `max_delay` has passed since the last message's `Date`; when
applicable it answers `False` exactly when the due time's *day-of-month*
number exceeds `now`'s day-of-month number (a bare `.day` comparison, not
a calendar-date comparison), and `'ask agent'` otherwise. -/
theorem claim_C6_wait_for_schedule_amended (maxDelay : Int)
    (inp : PolicyInput) (lastMsg : EmailMsg) (lc : DateTime)
    (hlast : inp.messages.getLast? = some lastMsg)
    (hdate : lastMsg.date = some lc) :
    ((waitForScheduleRun maxDelay inp).isSome ↔
      (inp.justGotUserMail = false ∧ maxDelay < instantOf inp.now - instantOf lc)) ∧
    (waitForScheduleRun maxDelay inp = some (.b false) ↔
      (inp.justGotUserMail = false ∧ maxDelay < instantOf inp.now - instantOf lc ∧
       0 < inp.sched.dueTime.day - inp.now.day)) ∧
    (waitForScheduleRun maxDelay inp = some (.s "ask agent") ↔
      (inp.justGotUserMail = false ∧ maxDelay < instantOf inp.now - instantOf lc ∧
       ¬ 0 < inp.sched.dueTime.day - inp.now.day)) := by
  cases hj : inp.justGotUserMail with
  | true =>
    refine ⟨?_, ?_, ?_⟩ <;> simp [waitForScheduleRun, hlast, hdate, hj]
  | false =>
    by_cases hdelay : maxDelay < instantOf inp.now - instantOf lc
    · by_cases hday : 0 < inp.sched.dueTime.day - inp.now.day
      · refine ⟨?_, ?_, ?_⟩ <;>
          simp [waitForScheduleRun, hlast, hdate, hj, hdelay, hday]
      · refine ⟨?_, ?_, ?_⟩ <;>
          simp [waitForScheduleRun, hlast, hdate, hj, hdelay, hday]
    · refine ⟨?_, ?_, ?_⟩ <;>
        simp [waitForScheduleRun, hlast, hdate, hj, hdelay]

/-- The `Date` of the last message of the C6 witness input. -/
def dW6 : DateTime :=
  { year := 2025, month := 5, day := 25, hour := 10,
    minute := 0, second := 0, offset := 0 }

/-- Last message of the C6 witness input. -/
def mW6 : EmailMsg :=
  { fromAddr := some "joe@example.com", date := some dW6 }

/-- Input on which the policy applies and waits (`day` 26 > `day` 25). -/
def inpW6 : PolicyInput :=
  { sched := { user := "joe@example.com", subject := "Financial Discipline",
               dueTime := { year := 2025, month := 4, day := 26, hour := 9,
                            minute := 0, second := 0, offset := 0 },
               reminderSent := 0 }
  , justGotUserMail := false
  , messages := [mW6]
  , now := { year := 2025, month := 5, day := 25, hour := 20,
             minute := 0, second := 0, offset := 0 } }

/-- Witness for the amended C6 at `inpW6`. -/
theorem claim_C6_witness :
    (inpW6.messages.getLast? = some mW6 ∧ mW6.date = some dW6) ∧
    (((waitForScheduleRun (6 * 3600) inpW6).isSome ↔
        (inpW6.justGotUserMail = false ∧
         6 * 3600 < instantOf inpW6.now - instantOf dW6)) ∧
     (waitForScheduleRun (6 * 3600) inpW6 = some (.b false) ↔
        (inpW6.justGotUserMail = false ∧
         6 * 3600 < instantOf inpW6.now - instantOf dW6 ∧
         0 < inpW6.sched.dueTime.day - inpW6.now.day)) ∧
     (waitForScheduleRun (6 * 3600) inpW6 = some (.s "ask agent") ↔
        (inpW6.justGotUserMail = false ∧
         6 * 3600 < instantOf inpW6.now - instantOf dW6 ∧
         ¬ 0 < inpW6.sched.dueTime.day - inpW6.now.day))) :=
  ⟨⟨by decide, by decide⟩,
   claim_C6_wait_for_schedule_amended (6 * 3600) inpW6 mW6 dW6 (by decide) (by decide)⟩

end EmailBot
